import Mathlib

/-!
Verification of the Resource-Guard host-telemetry monitor (`src/main.py`).

The file shallowly embeds the core sampling / classification / persistence /
query pipeline of `GPUResourceMonitor`:

* numeric readings are modelled as rationals (`ℚ`);
* the SQLite table `resource_usage` is a list of rows, an `INSERT` appends
  at the end, and the `BETWEEN` filter of `load_historical_data` compares
  the text timestamps with the lexicographic `String` order (which agrees
  with SQLite's binary collation on the ASCII `YYYY-MM-DD HH:MM:SS` format);
* a sampling cycle (`update_metrics`) is a state transition whose inputs are
  the values the hardware reads return during that cycle.  The Python code
  reads the GPU, CPU and RAM twice per cycle (once in `get_gpu_metrics` /
  `get_cpu_metrics` for the label text and alert check, once for plotting
  and storage), and calls `datetime.now()` separately in `add_notification`
  and at the `store_data` call site, so each cycle carries both readings and
  both formatted clock values;
* a second transition, `update_metricsE`, models cycles in which individual
  hardware reads may raise: Python has no `try`/`except` around them, so the
  first failing read aborts the rest of `update_metrics`, keeping whatever
  state mutations already happened.

The GPU memory info and the label/plot texts feed only the (excluded) UI
layer and are not modelled.
-/

namespace ResourceGuard

/-- Indicator colors set by `update_indicators`; `red` renders the Critical
severity, `yellow` Warning and `green` Normal. -/
inductive Color where
  | red
  | yellow
  | green
deriving DecidableEq, Repr

/-- Alert threshold settings (`GPU_TEMP_THRESHOLD = 80` in `main.py`). -/
def GPU_TEMP_THRESHOLD : ℚ := 80

/-- Alert threshold settings (`GPU_UTIL_THRESHOLD = 90` in `main.py`). -/
def GPU_UTIL_THRESHOLD : ℚ := 90

/-- GPU branch of `update_indicators` (`main.py` lines 345-352): red when
`gpu_util > 90 or gpu_temp > 80`, yellow when `gpu_util > 70 or
gpu_temp > 70`, else green.  The literals are hard-coded in the source. -/
def gpuColor (gpu_util gpu_temp : ℚ) : Color :=
  if gpu_util > 90 ∨ gpu_temp > 80 then .red
  else if gpu_util > 70 ∨ gpu_temp > 70 then .yellow
  else .green

/-- CPU branch of `update_indicators` (`main.py` lines 354-361). -/
def cpuColor (cpu_util : ℚ) : Color :=
  if cpu_util > 90 then .red
  else if cpu_util > 70 then .yellow
  else .green

/-- RAM branch of `update_indicators` (`main.py` lines 363-370). -/
def ramColor (ram_util : ℚ) : Color :=
  if ram_util > 90 then .red
  else if ram_util > 70 then .yellow
  else .green

/-- Function `update_indicators(gpu_util, gpu_temp, cpu_util, ram_util)`: the
three indicator colors it sets, in GPU, CPU, RAM order. -/
def update_indicators (gpu_util gpu_temp cpu_util ram_util : ℚ) :
    Color × Color × Color :=
  (gpuColor gpu_util gpu_temp, cpuColor cpu_util, ramColor ram_util)

end ResourceGuard

namespace ResourceGuard

/-- Lexicographic (byte-wise) `≤` on character lists: the order SQLite's
default `BINARY` collation gives `TEXT` comparisons such as
`timestamp BETWEEN ? AND ?`, restricted to the ASCII timestamp format. -/
def charsLe : List Char → List Char → Bool
  | [], _ => true
  | _ :: _, [] => false
  | a :: as, b :: bs => if a < b then true else if b < a then false else charsLe as bs

/-- Comparison `a ≤ b` on SQLite `TEXT` values. -/
def tsLe (a b : String) : Bool := charsLe a.data b.data

/-- One row of the `resource_usage` table (`init_database`): columns
`(timestamp TEXT, gpu_util REAL, gpu_temp REAL, cpu_util REAL, ram_util REAL)`,
no primary key, duplicates permitted. -/
structure Row where
  timestamp : String
  gpu_util : ℚ
  gpu_temp : ℚ
  cpu_util : ℚ
  ram_util : ℚ
deriving DecidableEq

/-- Method `store_data`: `INSERT INTO resource_usage VALUES (?,?,?,?,?)` with
the timestamp already formatted as `%Y-%m-%d %H:%M:%S`; an insert appends a
row at the end of the table. -/
def store_data (db : List Row) (timestamp : String)
    (gpu_util gpu_temp cpu_util ram_util : ℚ) : List Row :=
  db ++ [⟨timestamp, gpu_util, gpu_temp, cpu_util, ram_util⟩]

/-- Row-set of the `SELECT` in `load_historical_data`:
`SELECT timestamp, gpu_util, cpu_util, ram_util FROM resource_usage WHERE
timestamp BETWEEN ? AND ?`.  There is no `ORDER BY`, so rows come back in
table (insertion) order; each fetched row is the timestamp text together
with the list of selected numeric columns, in `SELECT` order. -/
def queryRows (db : List Row) (start_time end_time : String) :
    List (String × List ℚ) :=
  (db.filter fun r => tsLe start_time r.timestamp && tsLe r.timestamp end_time).map
    fun r => (r.timestamp, [r.gpu_util, r.cpu_util, r.ram_util])

/-- One notification appended by `add_notification`: the message embeds the
formatted current time, the GPU temperature and the GPU utilization. -/
structure AlertEvent where
  time : String
  temp : ℚ
  util : ℚ
deriving DecidableEq

/-- The mutable state of `GPUResourceMonitor` that the core pipeline touches:
the four parallel plotting lists, the `resource_usage` table and the
notifications text area (as the list of appended alert messages).  The label
and plot canvases belong to the excluded UI layer. -/
structure MonitorState where
  time_stamps : List ℚ
  gpu_usage_data : List ℚ
  cpu_usage_data : List ℚ
  ram_usage_data : List ℚ
  db : List Row
  notifications : List AlertEvent
deriving DecidableEq

/-- State right after `__init__`: empty lists, empty table, no notifications. -/
def initState : MonitorState := ⟨[], [], [], [], [], []⟩

/-- Method `add_notification(temp, util)`: appends one message to the
notifications text area. -/
def add_notification (st : MonitorState) (current_time : String)
    (temp util : ℚ) : MonitorState :=
  { st with notifications := st.notifications ++ [⟨current_time, temp, util⟩] }

/-- One point-in-time GPU reading: utilization percentage and temperature.
The memory info read alongside it feeds only the label text. -/
structure GpuReading where
  util : ℚ
  temp : ℚ
deriving DecidableEq

/-- Effect of `get_gpu_metrics` on the modelled state, given the reading `g`
its nvml calls return and the `datetime.now()` value `now` that
`add_notification` would format: one notification is appended iff
`gpu_temp > GPU_TEMP_THRESHOLD or gpu_util.gpu > GPU_UTIL_THRESHOLD`.
The returned label text is not modelled. -/
def get_gpu_metrics (st : MonitorState) (g : GpuReading) (now : String) :
    MonitorState :=
  if g.temp > GPU_TEMP_THRESHOLD ∨ g.util > GPU_UTIL_THRESHOLD then
    add_notification st now g.temp g.util
  else st

/-- Environment inputs of one fully successful `update_metrics` cycle.
The Python body reads the GPU twice (in `get_gpu_metrics`, then again at the
plotting block), reads the CPU and RAM twice (in `get_cpu_metrics`, then at
the plotting block), and calls `datetime.now()` once inside
`add_notification` and once at the `store_data` call site; each cycle
therefore carries both readings and both formatted clock values, plus the
relative time `time.time() - self.start_time` appended to `time_stamps`. -/
structure CycleInput where
  gpu1 : GpuReading
  cpu1 : ℚ
  ram1 : ℚ
  now_alert : String
  now_rel : ℚ
  gpu2 : GpuReading
  cpu2 : ℚ
  ram2 : ℚ
  now_store : String
deriving DecidableEq

/-- Bound `max_points = 100` hard-coded in `update_metrics`. -/
def max_points : Nat := 100

/-- Method `update_metrics`, success path, in source order: `get_gpu_metrics`
(first GPU read, possible notification), `get_cpu_metrics` (label only),
append `current_time` to `time_stamps`, second GPU read and append, CPU read
and append, RAM read and append, `store_data`, `update_indicators` (pure),
then truncation of all four lists to the last `max_points` entries when
`len(self.time_stamps) > max_points`. -/
def update_metrics (st : MonitorState) (i : CycleInput) : MonitorState :=
  let st1 := get_gpu_metrics st i.gpu1 i.now_alert
  let ts := st1.time_stamps ++ [i.now_rel]
  let gpu := st1.gpu_usage_data ++ [i.gpu2.util]
  let cpu := st1.cpu_usage_data ++ [i.cpu2]
  let ram := st1.ram_usage_data ++ [i.ram2]
  let db1 := store_data st1.db i.now_store i.gpu2.util i.gpu2.temp i.cpu2 i.ram2
  if ts.length > max_points then
    { st1 with
      time_stamps := ts.drop (ts.length - max_points)
      gpu_usage_data := gpu.drop (gpu.length - max_points)
      cpu_usage_data := cpu.drop (cpu.length - max_points)
      ram_usage_data := ram.drop (ram.length - max_points)
      db := db1 }
  else
    { st1 with
      time_stamps := ts
      gpu_usage_data := gpu
      cpu_usage_data := cpu
      ram_usage_data := ram
      db := db1 }

/-- States reachable from startup by a sequence of successful cycles. -/
def histState (inputs : List CycleInput) : MonitorState :=
  inputs.foldl update_metrics initState

/-- Environment inputs of one `update_metrics` cycle in which individual
hardware reads may raise; `none` is a read that raises. -/
structure CycleInputE where
  gpu1 : Option GpuReading
  cpu1 : Option ℚ
  ram1 : Option ℚ
  now_alert : String
  now_rel : ℚ
  gpu2 : Option GpuReading
  cpu2 : Option ℚ
  ram2 : Option ℚ
  now_store : String
deriving DecidableEq

/-- Method `update_metrics` with fallible reads.  The Python code wraps none
of the reads in `try`/`except`; an exception escapes `update_metrics` (the Qt
slot wrapper swallows it), so the cycle stops at the failing read and keeps
every state mutation made before it: a failing first GPU read aborts before
anything is written; a failing read at the plotting block leaves the lists
appended so far and skips `store_data` and the truncation. -/
def update_metricsE (st : MonitorState) (i : CycleInputE) : MonitorState :=
  match i.gpu1 with
  | none => st
  | some g1 =>
    let st1 := get_gpu_metrics st g1 i.now_alert
    match i.cpu1 with
    | none => st1
    | some _ =>
      match i.ram1 with
      | none => st1
      | some _ =>
        let st2 := { st1 with time_stamps := st1.time_stamps ++ [i.now_rel] }
        match i.gpu2 with
        | none => st2
        | some g2 =>
          let st3 := { st2 with gpu_usage_data := st2.gpu_usage_data ++ [g2.util] }
          match i.cpu2 with
          | none => st3
          | some c2 =>
            let st4 := { st3 with cpu_usage_data := st3.cpu_usage_data ++ [c2] }
            match i.ram2 with
            | none => st4
            | some r2 =>
              let st5 := { st4 with ram_usage_data := st4.ram_usage_data ++ [r2] }
              let st6 := { st5 with
                db := store_data st5.db i.now_store g2.util g2.temp c2 r2 }
              if st6.time_stamps.length > max_points then
                { st6 with
                  time_stamps := st6.time_stamps.drop (st6.time_stamps.length - max_points)
                  gpu_usage_data := st6.gpu_usage_data.drop (st6.gpu_usage_data.length - max_points)
                  cpu_usage_data := st6.cpu_usage_data.drop (st6.cpu_usage_data.length - max_points)
                  ram_usage_data := st6.ram_usage_data.drop (st6.ram_usage_data.length - max_points) }
              else st6

/-- Method `load_historical_data`: reads the two date edits (here the `start`
and `end` arguments, already formatted as `yyyy-MM-dd HH:mm:ss`), runs the
`SELECT`, and plots on the history canvas (excluded UI).  It only reads the
table and returns with the modelled state untouched; an empty row set pops an
information box and returns early, which is also a plain return. -/
def load_historical_data (st : MonitorState) (start_time end_time : String) :
    List (String × List ℚ) × MonitorState :=
  (queryRows st.db start_time end_time, st)

/-- Predicate of the round-trip property of C2, read literally: after
appending a sample, a query whose range covers its timestamp returns a row
whose numeric fields are the four appended values `gpu_util`, `gpu_temp`,
`cpu_util`, `ram_util`. -/
def roundTrip4 (db : List Row) (ts : String) (g gt c rm : ℚ)
    (s e : String) : Bool :=
  (queryRows (store_data db ts g gt c rm) s e).any
    fun p => p.1 == ts && p.2 == [g, gt, c, rm]

/-- Result rows listed in ascending text-timestamp order (adjacent pairs). -/
def tsSortedAsc : List (String × List ℚ) → Bool
  | [] => true
  | [_] => true
  | a :: b :: rest => tsLe a.1 b.1 && tsSortedAsc (b :: rest)

/-- Row persisted by the cycle `i` (the second readings and the second
`datetime.now()` value). -/
def mkRow (i : CycleInput) : Row :=
  ⟨i.now_store, i.gpu2.util, i.gpu2.temp, i.cpu2, i.ram2⟩

/-- Alert condition checked in `get_gpu_metrics`, on the first GPU reading. -/
def alertCond (i : CycleInput) : Bool :=
  decide (i.gpu1.temp > GPU_TEMP_THRESHOLD ∨ i.gpu1.util > GPU_UTIL_THRESHOLD)

/-- Alert recorded by the cycle `i` when `alertCond` holds. -/
def mkAlert (i : CycleInput) : AlertEvent :=
  ⟨i.now_alert, i.gpu1.temp, i.gpu1.util⟩

/-- Whether a persisted row's GPU reading classifies as Critical (red). -/
def criticalRow (r : Row) : Bool :=
  decide (gpuColor r.gpu_util r.gpu_temp = Color.red)

/-- Predicate of the AlertLog/SampleStore invariant of C6: every recorded
alert's timestamp matches exactly one row of `resource_usage`, and every
row carrying that timestamp has Critical GPU severity. -/
def alertsMatchStore (st : MonitorState) : Bool :=
  st.notifications.all fun e =>
    ((st.db.filter fun r => r.timestamp == e.time).length == 1) &&
    ((st.db.filter fun r => r.timestamp == e.time).all criticalRow)

/-- Last `n` entries of a list (`lst[-n:]` given `len(lst) > n`, the whole
list otherwise). -/
def keepLast (n : Nat) (l : List ℚ) : List ℚ := l.drop (l.length - n)

/-- Stored history with two in-range rows in reverse timestamp order. -/
def c3db : List Row :=
  [⟨"2024-01-01 00:00:02", 1, 2, 3, 4⟩, ⟨"2024-01-01 00:00:01", 5, 6, 7, 8⟩]

/-- Stored history with two in-range rows in ascending timestamp order. -/
def c3dbOk : List Row :=
  [⟨"2024-01-01 00:00:01", 1, 2, 3, 4⟩, ⟨"2024-01-01 00:00:02", 5, 6, 7, 8⟩]

/-- An unremarkable fully successful cycle (no alert). -/
def cInput0 : CycleInput :=
  { gpu1 := ⟨50, 60⟩, cpu1 := 40, ram1 := 30,
    now_alert := "2024-01-01 00:00:00", now_rel := 1,
    gpu2 := ⟨50, 60⟩, cpu2 := 40, ram2 := 30,
    now_store := "2024-01-01 00:00:00" }

/-- A cycle whose first GPU reading is Critical (util 95) but whose second
GPU reading, the one that is persisted, is Normal (util 10, temp 50). -/
def c6badInput : CycleInput :=
  { gpu1 := ⟨95, 60⟩, cpu1 := 50, ram1 := 40,
    now_alert := "2024-01-01 00:00:00", now_rel := 1,
    gpu2 := ⟨10, 50⟩, cpu2 := 50, ram2 := 40,
    now_store := "2024-01-01 00:00:00" }

/-- A Critical cycle whose two GPU readings and two clock reads agree. -/
def c6okInput : CycleInput :=
  { gpu1 := ⟨95, 60⟩, cpu1 := 50, ram1 := 40,
    now_alert := "2024-01-01 00:00:00", now_rel := 1,
    gpu2 := ⟨95, 60⟩, cpu2 := 50, ram2 := 40,
    now_store := "2024-01-01 00:00:00" }

/-- A cycle whose GPU read raises while the CPU and RAM reads would have
succeeded (util 50, ram 40). -/
def c7failInput : CycleInputE :=
  { gpu1 := none, cpu1 := some 50, ram1 := some 40,
    now_alert := "2024-01-01 00:00:00", now_rel := 1,
    gpu2 := none, cpu2 := some 50, ram2 := some 40,
    now_store := "2024-01-01 00:00:00" }

/-- A fully successful fallible-model cycle. -/
def c8okInput : CycleInputE :=
  { gpu1 := some ⟨95, 60⟩, cpu1 := some 50, ram1 := some 40,
    now_alert := "2024-01-01 00:00:00", now_rel := 1,
    gpu2 := some ⟨10, 50⟩, cpu2 := some 20, ram2 := some 30,
    now_store := "2024-01-01 00:00:00" }

/-- Transitivity of the byte-wise text order. -/
theorem charsLe_trans : ∀ (a b c : List Char),
    charsLe a b = true → charsLe b c = true → charsLe a c = true
  | [], _, _, _, _ => rfl
  | _ :: _, [], _, h, _ => by simp [charsLe] at h
  | _ :: _, _ :: _, [], _, h => by simp [charsLe] at h
  | a :: as, b :: bs, c :: cs, h1, h2 => by
    simp only [charsLe] at h1 h2 ⊢
    rcases lt_trichotomy a b with hab | hab | hab
    · rcases lt_trichotomy b c with hbc | hbc | hbc
      · rw [if_pos (lt_trans hab hbc)]
      · subst hbc; rw [if_pos hab]
      · rw [if_neg (lt_asymm hbc), if_pos hbc] at h2; exact absurd h2 (by simp)
    · subst hab
      rw [if_neg (lt_irrefl a), if_neg (lt_irrefl a)] at h1
      rcases lt_trichotomy a c with hac | hac | hac
      · rw [if_pos hac]
      · subst hac
        rw [if_neg (lt_irrefl a), if_neg (lt_irrefl a)] at h2 ⊢
        exact charsLe_trans as bs cs h1 h2
      · rw [if_neg (lt_asymm hac), if_pos hac] at h2; exact absurd h2 (by simp)
    · rw [if_neg (lt_asymm hab), if_pos hab] at h1; exact absurd h1 (by simp)

/-- Sortedness of a result list follows from pairwise ordering. -/
theorem tsSortedAsc_of_pairwise : ∀ {l : List (String × List ℚ)},
    l.Pairwise (fun a b => tsLe a.1 b.1 = true) → tsSortedAsc l = true := by
  intro l h
  induction l with
  | nil => rfl
  | cons a l ih =>
    cases l with
    | nil => rfl
    | cons b rest =>
      rw [List.pairwise_cons] at h
      simp only [tsSortedAsc, Bool.and_eq_true]
      exact ⟨h.1 b (List.mem_cons_self b rest), ih h.2⟩

/-- C1: For every sample, the Classifier (`update_indicators`) assigns
severity by strict threshold comparison: GPU is Critical (red) iff
`util > 90` or `temp > 80`, Warning (yellow) iff not Critical and
(`util > 70` or `temp > 70`), else Normal (green); CPU and RAM are each
Critical iff `util > 90`, Warning iff `util > 70`, else Normal; boundary
values belong to the lower tier (`util == 90` is not Critical, `90.0001`
is). -/
theorem c1_classifier_thresholds (util temp : ℚ) :
    (gpuColor util temp = Color.red ↔ (util > 90 ∨ temp > 80)) ∧
    (gpuColor util temp = Color.yellow ↔
      (¬(util > 90 ∨ temp > 80) ∧ (util > 70 ∨ temp > 70))) ∧
    (gpuColor util temp = Color.green ↔
      (¬(util > 90 ∨ temp > 80) ∧ ¬(util > 70 ∨ temp > 70))) ∧
    (cpuColor util = Color.red ↔ util > 90) ∧
    (cpuColor util = Color.yellow ↔ (¬(util > 90) ∧ util > 70)) ∧
    (cpuColor util = Color.green ↔ (¬(util > 90) ∧ ¬(util > 70))) ∧
    (ramColor util = Color.red ↔ util > 90) ∧
    (ramColor util = Color.yellow ↔ (¬(util > 90) ∧ util > 70)) ∧
    (ramColor util = Color.green ↔ (¬(util > 90) ∧ ¬(util > 70))) ∧
    update_indicators util temp util util =
      (gpuColor util temp, cpuColor util, ramColor util) ∧
    gpuColor 90 70 ≠ Color.red ∧ cpuColor 90 ≠ Color.red ∧
    ramColor 90 ≠ Color.red ∧
    gpuColor (90 + 1/10000) 70 = Color.red ∧
    cpuColor (90 + 1/10000) = Color.red := by
  refine ⟨?_, ?_, ?_, ?_, ?_, ?_, ?_, ?_, ?_, rfl, by decide, by decide,
    by decide,
    by simp only [gpuColor]
       rw [if_pos (Or.inl (by norm_num : (90:ℚ) + 1/10000 > 90))],
    by simp only [cpuColor]
       rw [if_pos (by norm_num : (90:ℚ) + 1/10000 > 90)]⟩ <;>
  · simp only [gpuColor, cpuColor, ramColor]
    split_ifs <;> simp_all

/-- C2 counterexample: the literal four-field round-trip fails, because the
`SELECT` of `load_historical_data` does not include the `gpu_temp` column.
Appending the sample `(ts, 10, 55, 20, 30)` to an empty table and querying
the covering range `[ts, ts]` returns no row whose numeric fields are
`[10, 55, 20, 30]` (the only returned row carries `[10, 20, 30]`). -/
theorem c2_counterexample :
    roundTrip4 [] "2024-01-01 00:00:00" 10 55 20 30
      "2024-01-01 00:00:00" "2024-01-01 00:00:00" = false ∧
    queryRows (store_data [] "2024-01-01 00:00:00" 10 55 20 30)
      "2024-01-01 00:00:00" "2024-01-01 00:00:00" =
      [("2024-01-01 00:00:00", [10, 20, 30])] := by
  constructor <;> decide

/-- C2 amended: for every sample appended via `store_data`, a query whose
range covers its timestamp returns a row for it whose three returned numeric
fields (`gpu_util`, `cpu_util`, `ram_util`) equal the values passed to
append; `gpu_temp` is persisted but is not among the query's selected
columns. -/
theorem c2_round_trip (db : List Row) (ts : String) (g gt c rm : ℚ)
    (s e : String) (h1 : tsLe s ts = true) (h2 : tsLe ts e = true) :
    (ts, [g, c, rm]) ∈ queryRows (store_data db ts g gt c rm) s e := by
  simp [queryRows, store_data, List.filter_append, h1, h2]

/-- C2 witness: the amended round-trip at a concrete sample and range. -/
theorem c2_round_trip_witness :
    ("2024-01-01 00:00:01", [10, 20, 30]) ∈
      queryRows (store_data [] "2024-01-01 00:00:01" 10 55 20 30)
        "2024-01-01 00:00:00" "2024-01-01 00:00:02" :=
  c2_round_trip [] "2024-01-01 00:00:01" 10 55 20 30
    "2024-01-01 00:00:00" "2024-01-01 00:00:02" (by decide) (by decide)

/-- C3 counterexample: the `SELECT` has no `ORDER BY`, so for a stored
history whose rows were inserted with decreasing timestamps the range query
returns both matching rows in insertion order, which is not ascending by
timestamp. -/
theorem c3_counterexample :
    tsSortedAsc (queryRows c3db "2024-01-01 00:00:00" "2024-01-01 00:00:03")
      = false ∧
    (queryRows c3db "2024-01-01 00:00:00" "2024-01-01 00:00:03").length = 2 := by
  constructor <;> decide

/-- C3 amended: the range query returns exactly the persisted rows whose
timestamp lies within the inclusive bounds, in insertion order; whenever the
stored timestamps are non-decreasing in insertion order (the single-producer
invariant of the sampler), the result is sorted ascending by the
second-resolution text timestamps. -/
theorem c3_query_in_range_sorted (db : List Row) (s e : String)
    (hmono : db.Pairwise (fun a b => tsLe a.timestamp b.timestamp = true)) :
    queryRows db s e =
      (db.filter fun r => tsLe s r.timestamp && tsLe r.timestamp e).map
        (fun r => (r.timestamp, [r.gpu_util, r.cpu_util, r.ram_util])) ∧
    tsSortedAsc (queryRows db s e) = true := by
  refine ⟨rfl, ?_⟩
  apply tsSortedAsc_of_pairwise
  unfold queryRows
  rw [List.pairwise_map]
  exact List.Pairwise.filter _ hmono

/-- C3 witness: the amended statement at a concrete monotone history. -/
theorem c3_query_in_range_sorted_witness :
    tsSortedAsc (queryRows c3dbOk "2024-01-01 00:00:00" "2024-01-01 00:00:03")
      = true :=
  (c3_query_in_range_sorted c3dbOk "2024-01-01 00:00:00" "2024-01-01 00:00:03"
    (by decide)).2

/-- C9: a range query with `start > end` (in the text order used by the
`BETWEEN`) matches no row and returns the empty sequence; the code path then
merely pops a message box and returns, raising nothing. -/
theorem c9_inverted_range_empty (db : List Row) (s e : String)
    (h : tsLe s e = false) : queryRows db s e = [] := by
  unfold queryRows
  have hall : ∀ r ∈ db, ¬(tsLe s r.timestamp && tsLe r.timestamp e) = true := by
    intro r _ hr
    rw [Bool.and_eq_true] at hr
    have := charsLe_trans s.data r.timestamp.data e.data hr.1 hr.2
    rw [show charsLe s.data e.data = tsLe s e from rfl, h] at this
    exact Bool.noConfusion this
  rw [List.filter_eq_nil_iff.mpr hall, List.map_nil]

/-- C9 witness: an inverted range on a one-row table returns nothing. -/
theorem c9_inverted_range_empty_witness :
    queryRows [⟨"2024-01-01 00:00:01", 1, 2, 3, 4⟩]
      "2024-01-01 00:00:02" "2024-01-01 00:00:01" = [] :=
  c9_inverted_range_empty _ "2024-01-01 00:00:02" "2024-01-01 00:00:01"
    (by decide)

/-- Notifying leaves `time_stamps` alone. -/
@[simp] theorem get_gpu_metrics_time_stamps (st : MonitorState)
    (g : GpuReading) (now : String) :
    (get_gpu_metrics st g now).time_stamps = st.time_stamps := by
  unfold get_gpu_metrics add_notification; split_ifs <;> rfl

/-- Notifying leaves `gpu_usage_data` alone. -/
@[simp] theorem get_gpu_metrics_gpu_usage_data (st : MonitorState)
    (g : GpuReading) (now : String) :
    (get_gpu_metrics st g now).gpu_usage_data = st.gpu_usage_data := by
  unfold get_gpu_metrics add_notification; split_ifs <;> rfl

/-- Notifying leaves `cpu_usage_data` alone. -/
@[simp] theorem get_gpu_metrics_cpu_usage_data (st : MonitorState)
    (g : GpuReading) (now : String) :
    (get_gpu_metrics st g now).cpu_usage_data = st.cpu_usage_data := by
  unfold get_gpu_metrics add_notification; split_ifs <;> rfl

/-- Notifying leaves `ram_usage_data` alone. -/
@[simp] theorem get_gpu_metrics_ram_usage_data (st : MonitorState)
    (g : GpuReading) (now : String) :
    (get_gpu_metrics st g now).ram_usage_data = st.ram_usage_data := by
  unfold get_gpu_metrics add_notification; split_ifs <;> rfl

/-- Notifying leaves the table alone. -/
@[simp] theorem get_gpu_metrics_db (st : MonitorState)
    (g : GpuReading) (now : String) :
    (get_gpu_metrics st g now).db = st.db := by
  unfold get_gpu_metrics add_notification; split_ifs <;> rfl

/-- Every successful cycle persists exactly the one row built from its
second readings. -/
theorem update_metrics_db (st : MonitorState) (i : CycleInput) :
    (update_metrics st i).db = st.db ++ [mkRow i] := by
  simp only [update_metrics, store_data]
  split_ifs <;> simp [mkRow]

/-- Every successful cycle appends one alert iff `alertCond` holds for its
first GPU reading. -/
theorem update_metrics_notifications (st : MonitorState) (i : CycleInput) :
    (update_metrics st i).notifications =
      if i.gpu1.temp > GPU_TEMP_THRESHOLD ∨ i.gpu1.util > GPU_UTIL_THRESHOLD
      then st.notifications ++ [mkAlert i]
      else st.notifications := by
  simp only [update_metrics, get_gpu_metrics, add_notification]
  split_ifs <;> simp [mkAlert]

/-- The four window lists after one cycle, in terms of the state before it;
the truncation condition is evaluated on `time_stamps`. -/
theorem update_metrics_lists (st : MonitorState) (i : CycleInput) :
    (update_metrics st i).time_stamps =
      (if (st.time_stamps ++ [i.now_rel]).length > max_points
       then (st.time_stamps ++ [i.now_rel]).drop
              ((st.time_stamps ++ [i.now_rel]).length - max_points)
       else st.time_stamps ++ [i.now_rel]) ∧
    (update_metrics st i).gpu_usage_data =
      (if (st.time_stamps ++ [i.now_rel]).length > max_points
       then (st.gpu_usage_data ++ [i.gpu2.util]).drop
              ((st.gpu_usage_data ++ [i.gpu2.util]).length - max_points)
       else st.gpu_usage_data ++ [i.gpu2.util]) ∧
    (update_metrics st i).cpu_usage_data =
      (if (st.time_stamps ++ [i.now_rel]).length > max_points
       then (st.cpu_usage_data ++ [i.cpu2]).drop
              ((st.cpu_usage_data ++ [i.cpu2]).length - max_points)
       else st.cpu_usage_data ++ [i.cpu2]) ∧
    (update_metrics st i).ram_usage_data =
      (if (st.time_stamps ++ [i.now_rel]).length > max_points
       then (st.ram_usage_data ++ [i.ram2]).drop
              ((st.ram_usage_data ++ [i.ram2]).length - max_points)
       else st.ram_usage_data ++ [i.ram2]) := by
  simp only [update_metrics, get_gpu_metrics_time_stamps,
    get_gpu_metrics_gpu_usage_data, get_gpu_metrics_cpu_usage_data,
    get_gpu_metrics_ram_usage_data]
  split_ifs <;> exact ⟨rfl, rfl, rfl, rfl⟩

/-- Table contents after a run of successful cycles. -/
theorem foldl_db : ∀ (inputs : List CycleInput) (st : MonitorState),
    (inputs.foldl update_metrics st).db = st.db ++ inputs.map mkRow
  | [], st => by simp
  | i :: rest, st => by
    rw [List.foldl_cons, foldl_db rest, update_metrics_db]
    simp

/-- Notifications after a run of successful cycles. -/
theorem foldl_notifications : ∀ (inputs : List CycleInput) (st : MonitorState),
    (inputs.foldl update_metrics st).notifications =
      st.notifications ++ (inputs.filter alertCond).map mkAlert
  | [], st => by simp
  | i :: rest, st => by
    rw [List.foldl_cons, foldl_notifications rest, update_metrics_notifications]
    by_cases h : i.gpu1.temp > GPU_TEMP_THRESHOLD ∨ i.gpu1.util > GPU_UTIL_THRESHOLD
    · simp [List.filter_cons, alertCond, h]
    · simp [List.filter_cons, alertCond, h]

/-- Length of `keepLast`. -/
theorem keepLast_length (n : Nat) (l : List ℚ) :
    (keepLast n l).length = l.length - (l.length - n) := by
  simp [keepLast]

/-- One append-then-truncate step starting from the last `n` elements of `l`
yields the last `n` elements of `l ++ [x]`; the step's condition may be
evaluated on any list of the same length as `l`. -/
theorem keepLast_snoc (n : Nat) (hn : 0 < n) (l m : List ℚ) (x y : ℚ)
    (hlm : m.length = l.length) :
    (if (keepLast n l ++ [x]).length > n
     then (keepLast n m ++ [y]).drop ((keepLast n m ++ [y]).length - n)
     else keepLast n m ++ [y]) = keepLast n (m ++ [y]) := by
  have hcl : (keepLast n l ++ [x]).length = l.length - (l.length - n) + 1 := by
    rw [List.length_append, keepLast_length, List.length_singleton]
  rcases Nat.lt_or_ge m.length n with hl | hl
  · have hml : m.length - n = 0 := by omega
    have hmyl : (m ++ [y]).length - n = 0 := by
      rw [List.length_append, List.length_singleton]; omega
    rw [if_neg (by rw [hcl]; omega)]
    unfold keepLast
    rw [hml, List.drop_zero, hmyl, List.drop_zero]
  · have hk : (keepLast n m).length = n := by rw [keepLast_length]; omega
    rw [if_pos (by rw [hcl]; omega)]
    rw [List.length_append, hk, List.length_singleton,
        show n + 1 - n = 1 from by omega]
    have e1 : (keepLast n m ++ [y]).drop 1 = (keepLast n m).drop 1 ++ [y] :=
      List.drop_append_of_le_length (by rw [hk]; omega)
    have e2 : (keepLast n m).drop 1 = m.drop (m.length + 1 - n) := by
      unfold keepLast
      rw [List.drop_drop, show m.length - n + 1 = m.length + 1 - n from by omega]
    have e3 : keepLast n (m ++ [y]) = m.drop (m.length + 1 - n) ++ [y] := by
      unfold keepLast
      rw [List.length_append, List.length_singleton,
          List.drop_append_of_le_length (by omega)]
    rw [e1, e2, e3]

/-- The four window lists after a run of successful cycles hold the last
`max_points` of the full appended histories. -/
theorem foldl_window : ∀ (inputs : List CycleInput) (st : MonitorState)
    (L1 L2 L3 L4 : List ℚ),
    L2.length = L1.length → L3.length = L1.length → L4.length = L1.length →
    st.time_stamps = keepLast max_points L1 →
    st.gpu_usage_data = keepLast max_points L2 →
    st.cpu_usage_data = keepLast max_points L3 →
    st.ram_usage_data = keepLast max_points L4 →
    (inputs.foldl update_metrics st).time_stamps
        = keepLast max_points (L1 ++ inputs.map fun i => i.now_rel) ∧
    (inputs.foldl update_metrics st).gpu_usage_data
        = keepLast max_points (L2 ++ inputs.map fun i => i.gpu2.util) ∧
    (inputs.foldl update_metrics st).cpu_usage_data
        = keepLast max_points (L3 ++ inputs.map fun i => i.cpu2) ∧
    (inputs.foldl update_metrics st).ram_usage_data
        = keepLast max_points (L4 ++ inputs.map fun i => i.ram2)
  | [], st, L1, L2, L3, L4, e2, e3, e4, h1, h2, h3, h4 => by
    simp [h1, h2, h3, h4]
  | i :: rest, st, L1, L2, L3, L4, e2, e3, e4, h1, h2, h3, h4 => by
    rw [List.foldl_cons]
    have hmp : 0 < max_points := by norm_num [max_points]
    obtain ⟨s1, s2, s3, s4⟩ := update_metrics_lists st i
    rw [h1] at s1 s2 s3 s4
    rw [h2] at s2
    rw [h3] at s3
    rw [h4] at s4
    have k1 : (update_metrics st i).time_stamps
        = keepLast max_points (L1 ++ [i.now_rel]) := by
      rw [s1]; exact keepLast_snoc max_points hmp L1 L1 i.now_rel i.now_rel rfl
    have k2 : (update_metrics st i).gpu_usage_data
        = keepLast max_points (L2 ++ [i.gpu2.util]) := by
      rw [s2]; exact keepLast_snoc max_points hmp L1 L2 i.now_rel i.gpu2.util e2
    have k3 : (update_metrics st i).cpu_usage_data
        = keepLast max_points (L3 ++ [i.cpu2]) := by
      rw [s3]; exact keepLast_snoc max_points hmp L1 L3 i.now_rel i.cpu2 e3
    have k4 : (update_metrics st i).ram_usage_data
        = keepLast max_points (L4 ++ [i.ram2]) := by
      rw [s4]; exact keepLast_snoc max_points hmp L1 L4 i.now_rel i.ram2 e4
    have := foldl_window rest (update_metrics st i)
      (L1 ++ [i.now_rel]) (L2 ++ [i.gpu2.util]) (L3 ++ [i.cpu2]) (L4 ++ [i.ram2])
      (by simp [e2]) (by simp [e3]) (by simp [e4]) k1 k2 k3 k4
    simpa [List.append_assoc] using this

/-- Window lists of a reachable state, in terms of the input history. -/
theorem histState_window (inputs : List CycleInput) :
    (histState inputs).time_stamps
        = keepLast max_points (inputs.map fun i => i.now_rel) ∧
    (histState inputs).gpu_usage_data
        = keepLast max_points (inputs.map fun i => i.gpu2.util) ∧
    (histState inputs).cpu_usage_data
        = keepLast max_points (inputs.map fun i => i.cpu2) ∧
    (histState inputs).ram_usage_data
        = keepLast max_points (inputs.map fun i => i.ram2) := by
  have := foldl_window inputs initState [] [] [] []
    rfl rfl rfl rfl rfl rfl rfl
  simpa using this

/-- C4: in any run of sampling cycles, exactly one alert is recorded in each
cycle whose (alert-path) GPU reading has `util > 90` or `temp > 80`, and
zero in every other cycle; no deduplication happens across consecutive
Critical cycles.  Stated per cycle and as the alert count of a whole run. -/
theorem c4_alert_per_cycle (st : MonitorState) (i : CycleInput)
    (inputs : List CycleInput) :
    ((update_metrics st i).notifications =
      if i.gpu1.util > 90 ∨ i.gpu1.temp > 80
      then st.notifications ++ [⟨i.now_alert, i.gpu1.temp, i.gpu1.util⟩]
      else st.notifications) ∧
    (histState inputs).notifications.length =
      (inputs.filter fun j => decide (j.gpu1.util > 90 ∨ j.gpu1.temp > 80)).length
    := by
  constructor
  · rw [update_metrics_notifications]
    rw [if_congr (Iff.symm or_comm) rfl rfl]
    rfl
  · rw [histState, foldl_notifications, List.length_append, List.length_map]
    simp only [initState, List.length_nil, Nat.zero_add]
    congr 1
    apply List.filter_congr
    intro j _
    simp only [alertCond, GPU_TEMP_THRESHOLD, GPU_UTIL_THRESHOLD]
    exact decide_eq_decide.mpr or_comm

/-- C5: after every cycle of any run, the four window lists have identical
length, at most `max_points = 100`; eviction is strictly FIFO: a run of 150
cycles leaves exactly the last 100 appended entries of each list in order
(the first remaining one being the 51st appended). -/
theorem c5_recent_window (inputs : List CycleInput) :
    (∀ k : Nat,
      (histState (inputs.take k)).time_stamps.length ≤ max_points ∧
      (histState (inputs.take k)).gpu_usage_data.length
        = (histState (inputs.take k)).time_stamps.length ∧
      (histState (inputs.take k)).cpu_usage_data.length
        = (histState (inputs.take k)).time_stamps.length ∧
      (histState (inputs.take k)).ram_usage_data.length
        = (histState (inputs.take k)).time_stamps.length) ∧
    (inputs.length = 150 →
      (histState inputs).time_stamps = (inputs.map fun i => i.now_rel).drop 50 ∧
      (histState inputs).gpu_usage_data
        = (inputs.map fun i => i.gpu2.util).drop 50 ∧
      (histState inputs).cpu_usage_data = (inputs.map fun i => i.cpu2).drop 50 ∧
      (histState inputs).ram_usage_data = (inputs.map fun i => i.ram2).drop 50)
    := by
  constructor
  · intro k
    obtain ⟨w1, w2, w3, w4⟩ := histState_window (inputs.take k)
    rw [w1, w2, w3, w4]
    simp only [keepLast_length, List.length_map, max_points]
    exact ⟨by omega, trivial, trivial, trivial⟩
  · intro h150
    obtain ⟨w1, w2, w3, w4⟩ := histState_window inputs
    rw [w1, w2, w3, w4]
    unfold keepLast max_points
    simp [h150]

/-- C5 witness: the bound at a 150-cycle run and the FIFO shape of its
window. -/
theorem c5_recent_window_witness :
    (histState ((List.replicate 150 cInput0).take 150)).time_stamps.length
        ≤ max_points ∧
    (histState (List.replicate 150 cInput0)).gpu_usage_data =
      ((List.replicate 150 cInput0).map fun i => i.gpu2.util).drop 50 :=
  ⟨((c5_recent_window (List.replicate 150 cInput0)).1 150).1,
   ((c5_recent_window (List.replicate 150 cInput0)).2 (by simp)).2.1⟩

/-- C6 counterexample: the cycle `c6badInput` is Critical on the alert-path
GPU reading (util 95) but persists the plot-path reading (util 10, temp 50),
so the recorded alert's timestamp matches one persisted row whose GPU
severity is not Critical: the claimed invariant fails on this reachable
state, which does record an alert. -/
theorem c6_counterexample :
    alertsMatchStore (histState [c6badInput]) = false ∧
    (histState [c6badInput]).notifications.length = 1 := by
  constructor <;> decide

/-- C6 amended: in every state reached by successful cycles whose two GPU
readings agree, whose two `datetime.now()` calls format to the same second,
and whose store timestamps are pairwise distinct across cycles, every
recorded alert's timestamp matches exactly one persisted row, and that row's
GPU severity is Critical. -/
theorem c6_alerts_match_store (inputs : List CycleInput)
    (hread : ∀ i ∈ inputs, i.gpu2 = i.gpu1)
    (hclock : ∀ i ∈ inputs, i.now_store = i.now_alert)
    (hdist : (inputs.map fun i => i.now_store).Nodup) :
    alertsMatchStore (histState inputs) = true := by
  unfold alertsMatchStore
  rw [List.all_eq_true]
  intro e he
  have hnotif : (histState inputs).notifications
      = (inputs.filter alertCond).map mkAlert := by
    rw [histState, foldl_notifications]; simp [initState]
  have hdb : (histState inputs).db = inputs.map mkRow := by
    rw [histState, foldl_db]; simp [initState]
  rw [hnotif, List.mem_map] at he
  obtain ⟨i, hifilter, hei⟩ := he
  rw [List.mem_filter] at hifilter
  obtain ⟨hiin, hicond⟩ := hifilter
  subst hei
  have htime : (mkAlert i).time = i.now_store := by
    rw [hclock i hiin]; rfl
  rw [Bool.and_eq_true]
  constructor
  · rw [hdb]
    have h1 : ((inputs.map mkRow).filter
          fun r => r.timestamp == (mkAlert i).time).length
        = List.count (mkAlert i).time (inputs.map fun j => j.now_store) := by
      rw [← List.countP_eq_length_filter, List.countP_map,
          List.count, List.countP_map]
      rfl
    rw [h1, htime,
        List.count_eq_one_of_mem hdist
          (List.mem_map_of_mem (fun j => j.now_store) hiin)]
    rfl
  · rw [hdb, List.all_eq_true]
    intro r hr
    rw [List.mem_filter] at hr
    obtain ⟨hrmem, hrts⟩ := hr
    rw [List.mem_map] at hrmem
    obtain ⟨j, hjin, hjr⟩ := hrmem
    have hjts : j.now_store = i.now_store := by
      have hts : r.timestamp = (mkAlert i).time := by
        exact eq_of_beq hrts
      rw [← hjr] at hts
      rw [htime] at hts
      exact hts
    have hji : j = i :=
      List.inj_on_of_nodup_map hdist hjin hiin hjts
    subst hji
    rw [← hjr]
    rw [criticalRow, decide_eq_true_eq]
    rw [show (mkRow j).gpu_util = j.gpu2.util from rfl,
        show (mkRow j).gpu_temp = j.gpu2.temp from rfl,
        hread j hjin]
    rw [alertCond, decide_eq_true_eq] at hicond
    unfold gpuColor
    rw [if_pos]
    rcases hicond with h | h
    · exact Or.inr h
    · exact Or.inl h

/-- C6 witness: the amended invariant at a one-cycle run with agreeing
readings and clocks. -/
theorem c6_alerts_match_store_witness :
    alertsMatchStore (histState [c6okInput]) = true :=
  c6_alerts_match_store [c6okInput] (by decide) (by decide) (by decide)

/-- C7 counterexample: in the cycle `c7failInput` the GPU read raises while
the CPU and RAM reads would succeed, yet neither the CPU nor the RAM value
is appended to the recent window: read failures are not independent. -/
theorem c7_counterexample :
    ¬ ((update_metricsE initState c7failInput).cpu_usage_data
         = initState.cpu_usage_data ++ [50] ∧
       (update_metricsE initState c7failInput).ram_usage_data
         = initState.ram_usage_data ++ [40]) := by
  decide

/-- C7 amended: metric read failures are not isolated — no read is wrapped
in an exception handler, so a failing GPU read in `get_gpu_metrics` aborts
the whole cycle and leaves the state exactly as it was: no CPU or RAM value
is captured, nothing is classified, appended or persisted. -/
theorem c7_gpu_failure_aborts (st : MonitorState) (i : CycleInputE)
    (h : i.gpu1 = none) : update_metricsE st i = st := by
  unfold update_metricsE
  rw [h]

/-- C7 witness: the aborted cycle at a concrete failing input. -/
theorem c7_gpu_failure_aborts_witness :
    update_metricsE initState c7failInput = initState :=
  c7_gpu_failure_aborts initState c7failInput rfl

/-- C8: a cycle in which any of the metric reads raises persists nothing
(the exception aborts `update_metrics` before `store_data` runs), and a
cycle in which all reads succeed persists exactly one row built from the
plot-path readings. -/
theorem c8_partial_not_persisted (st : MonitorState) (i : CycleInputE) :
    ((i.gpu1 = none ∨ i.cpu1 = none ∨ i.ram1 = none ∨ i.gpu2 = none ∨
      i.cpu2 = none ∨ i.ram2 = none) → (update_metricsE st i).db = st.db) ∧
    (∀ g1 c1 r1 g2 c2 r2,
      i.gpu1 = some g1 → i.cpu1 = some c1 → i.ram1 = some r1 →
      i.gpu2 = some g2 → i.cpu2 = some c2 → i.ram2 = some r2 →
      (update_metricsE st i).db =
        st.db ++ [⟨i.now_store, g2.util, g2.temp, c2, r2⟩]) := by
  rcases i with ⟨g1, c1, r1, na, nr, g2, c2, r2, ns⟩
  cases g1 with
  | none =>
    exact ⟨fun _ => rfl,
      fun a1 a2 a3 a4 a5 a6 h1 _ _ _ _ _ => Option.noConfusion h1⟩
  | some g1 =>
  cases c1 with
  | none =>
    refine ⟨fun _ => ?_,
      fun a1 a2 a3 a4 a5 a6 _ h2 _ _ _ _ => Option.noConfusion h2⟩
    simp [update_metricsE]
  | some c1 =>
  cases r1 with
  | none =>
    refine ⟨fun _ => ?_,
      fun a1 a2 a3 a4 a5 a6 _ _ h3 _ _ _ => Option.noConfusion h3⟩
    simp [update_metricsE]
  | some r1 =>
  cases g2 with
  | none =>
    refine ⟨fun _ => ?_,
      fun a1 a2 a3 a4 a5 a6 _ _ _ h4 _ _ => Option.noConfusion h4⟩
    simp [update_metricsE]
  | some g2 =>
  cases c2 with
  | none =>
    refine ⟨fun _ => ?_,
      fun a1 a2 a3 a4 a5 a6 _ _ _ _ h5 _ => Option.noConfusion h5⟩
    simp [update_metricsE]
  | some c2 =>
  cases r2 with
  | none =>
    refine ⟨fun _ => ?_,
      fun a1 a2 a3 a4 a5 a6 _ _ _ _ _ h6 => Option.noConfusion h6⟩
    simp [update_metricsE]
  | some r2 =>
  constructor
  · rintro (h | h | h | h | h | h) <;> exact Option.noConfusion h
  · intro a1 a2 a3 a4 a5 a6 h1 h2 h3 h4 h5 h6
    injection h4 with h4
    injection h5 with h5
    injection h6 with h6
    subst h4
    subst h5
    subst h6
    simp [update_metricsE, store_data, apply_ite MonitorState.db]

/-- C8 witness: a failing cycle persists nothing; a fully successful cycle
persists its one row. -/
theorem c8_partial_not_persisted_witness :
    (update_metricsE initState c7failInput).db = initState.db ∧
    (update_metricsE initState c8okInput).db =
      initState.db ++ [⟨"2024-01-01 00:00:00", 10, 50, 20, 30⟩] :=
  ⟨(c8_partial_not_persisted initState c7failInput).1 (Or.inl rfl),
   (c8_partial_not_persisted initState c8okInput).2 ⟨95, 60⟩ 50 40 ⟨10, 50⟩ 20 30
     rfl rfl rfl rfl rfl rfl⟩

/-- C10: running a historical range query returns the selected rows and
leaves every piece of sampling state unchanged — the `resource_usage` table,
the four in-memory window lists and the recorded notifications. -/
theorem c10_history_query_frame (st : MonitorState) (s e : String) :
    (load_historical_data st s e).2 = st ∧
    (load_historical_data st s e).2.db = st.db ∧
    (load_historical_data st s e).2.time_stamps = st.time_stamps ∧
    (load_historical_data st s e).2.gpu_usage_data = st.gpu_usage_data ∧
    (load_historical_data st s e).2.cpu_usage_data = st.cpu_usage_data ∧
    (load_historical_data st s e).2.ram_usage_data = st.ram_usage_data ∧
    (load_historical_data st s e).2.notifications = st.notifications ∧
    (load_historical_data st s e).1 = queryRows st.db s e :=
  ⟨rfl, rfl, rfl, rfl, rfl, rfl, rfl, rfl⟩

end ResourceGuard
